import Mathlib

/-
Verification development for the ham-shack-glue repository.

Shallow embedding of the two source files:
  * qsofwdsvc.py  — WSJ-X UDP packet codec (WSJPacket) and the QSO packet
    forwarding relay (QSOForwarder);
  * flrigproxy.py — the serial-bridge relay (RigProxy) between flrig and a
    spawned rigctlcom child process.

Modelling conventions:
  * Byte strings are `List Nat` (one entry per byte).  Python's `.decode()`
    call on a byte slice is modelled as the identity on the byte sequence
    (identities, versions and revisions are kept as raw bytes).
  * Python code that returns normally is modelled in `Except PyErr`'s
    `Except.ok`; a raised-and-uncaught Python exception is `Except.error`.
    `Except.ok none` from the parser models `WSJPacket.parse` returning
    `None` (the logged decode failure for a bad magic or schema).
  * Host addresses are abstracted to `Nat` (0 stands for "0.0.0.0",
    2130706433 = 0x7F000001 stands for "127.0.0.1"); an address is a
    (host, port) pair.
  * Socket handles are abstracted to `Nat` identifiers allocated from a
    counter; network sends always succeed in the model and are recorded as
    `Effect`s (the per-destination `socket.error` branch of qsofwdsvc.py
    lines 141-143 is therefore not exercised by the model).
-/

/-- Python exceptions that the modelled code can raise and leave uncaught:
`struct.error` from `struct.unpack` on a short buffer, and `AttributeError`
from attribute access on `None` (or on an object lacking the attribute). -/
inductive PyErr
  | structError
  | attributeError
  deriving DecidableEq, Repr

/-- Bytes of a datagram or of a decoded string field, one `Nat` per byte. -/
abbrev Bytes := List Nat

/-- An address is a (host, port) pair with the host abstracted to a `Nat`. -/
abbrev Addr := Nat × Nat

/-- Model of `struct.unpack('>I', buffer[offset:offset+4])[0]`
(qsofwdsvc.py line 54 and line 44): Python's slice clamps at the end of the
buffer, and `struct.unpack` raises `struct.error` unless the slice holds
exactly 4 bytes; otherwise the big-endian 32-bit value is returned. -/
def readU32 (buffer : Bytes) (offset : Nat) : Except PyErr Nat :=
  match (buffer.drop offset).take 4 with
  | [b0, b1, b2, b3] => Except.ok (((b0 * 256 + b1) * 256 + b2) * 256 + b3)
  | _ => Except.error PyErr.structError

/-- Message-type discriminant of a heartbeat (qsofwdsvc.py line 22). -/
def WSJTX_HEARTBEAT : Nat := 0

/-- Decoded packet (qsofwdsvc.py lines 24-59).  The Python object carries
`type` and `ident` always, and `max_schema`/`version`/`revision` only for
type-0 packets; the optional fields model that.  Note: the Python code
stores `max_schema` as the 1-tuple returned by `struct.unpack` (line 44
lacks the unpacking comma); the model keeps the numeric value. -/
structure WSJPacket where
  type : Nat
  ident : Bytes
  max_schema : Option Nat := none
  version : Option Bytes := none
  revision : Option Bytes := none
  deriving DecidableEq, Repr

/-- Fields returned by `WSJPacket.parse_type_0` (qsofwdsvc.py lines 49-50). -/
structure Type0Props where
  max_schema : Nat
  version : Bytes
  revision : Bytes
  deriving DecidableEq, Repr

/-- Model of `WSJPacket.parse_string` (qsofwdsvc.py lines 52-55): read a
4-byte big-endian length, then take that many bytes.  Python's slice
`buffer[offset+4:offset+4+size]` clamps at the buffer end, so a declared
length running past the buffer silently yields a shorter byte string; the
`.decode()` is modelled as the identity on the bytes. -/
def WSJPacket.parse_string (buffer : Bytes) (offset : Nat) : Except PyErr Bytes := do
  let size ← readU32 buffer offset
  return (buffer.drop (offset + 4)).take size

/-- Model of `WSJPacket.parse_type_0` (qsofwdsvc.py lines 42-50).  The
source advances the offset past the version string by `len(version)` only,
omitting the string's own 4-byte length prefix, so the revision string is
read starting 4 bytes too early; the model preserves that behaviour. -/
def WSJPacket.parse_type_0 (message : Bytes) (offset : Nat) : Except PyErr Type0Props := do
  let max_schema ← readU32 message offset
  let version ← WSJPacket.parse_string message (offset + 4)
  let revision ← WSJPacket.parse_string message (offset + 4 + version.length)
  return { max_schema := max_schema, version := version, revision := revision }

/-- Model of `WSJPacket.parse` (qsofwdsvc.py lines 25-40):
`struct.unpack('>III', message[:12])` raises `struct.error` when fewer than
12 bytes are present (modelled by the three `readU32` reads); a wrong magic
or a schema other than 2 is logged and `None` is returned (`Except.ok
none`); otherwise the identity is parsed at offset 12 and, for discriminant
0, the heartbeat fields are parsed at offset `4*4 + len(ident)`. -/
def WSJPacket.parse (message : Bytes) : Except PyErr (Option WSJPacket) := do
  let magic ← readU32 message 0
  let schema ← readU32 message 4
  let number ← readU32 message 8
  if magic ≠ 0xADBCCBDA then return none
  else if schema ≠ 2 then return none
  else
    let ident ← WSJPacket.parse_string message 12
    if number = 0 then
      let props ← WSJPacket.parse_type_0 message (4 * 4 + ident.length)
      return some { type := number, ident := ident,
                    max_schema := some props.max_schema,
                    version := some props.version,
                    revision := some props.revision }
    else
      return some { type := number, ident := ident }

/-- Modelled from the spec: big-endian 4-byte encoding of an integer, used
only to build concrete well-formed datagrams for the wire layout of spec
sections 4.1 and 6 (the source has no encoder; the relay forwards raw
bytes). -/
def u32be (n : Nat) : Bytes :=
  [n / 2 ^ 24 % 256, n / 2 ^ 16 % 256, n / 2 ^ 8 % 256, n % 256]

/-- Modelled from the spec: a length-prefixed string field (4-byte
big-endian byte count, then the bytes). -/
def lenPrefixed (s : Bytes) : Bytes := u32be s.length ++ s

/-- Modelled from the spec: a well-formed Heartbeat datagram — magic
0xADBCCBDA, schema 2, discriminant 0, length-prefixed identity, 4-byte
max-schema, length-prefixed version, length-prefixed revision, all
big-endian (spec sections 4.1 and 6). -/
def heartbeatDatagram (ident : Bytes) (maxSchema : Nat) (version revision : Bytes) : Bytes :=
  u32be 0xADBCCBDA ++ u32be 2 ++ u32be 0 ++ lenPrefixed ident ++
    u32be maxSchema ++ lenPrefixed version ++ lenPrefixed revision

/-- Modelled from the spec: a well-formed non-heartbeat datagram — header,
length-prefixed identity, then opaque payload (spec sections 4.1 and 6). -/
def opaqueDatagram (ptype : Nat) (ident : Bytes) (payload : Bytes) : Bytes :=
  u32be 0xADBCCBDA ++ u32be 2 ++ u32be ptype ++ lenPrefixed ident ++ payload

/-- Identity bytes of the string "FT-101". -/
def identFT101 : Bytes := [70, 84, 45, 49, 48, 49]

/-- Bytes of the version string "2.0". -/
def ver20 : Bytes := [50, 46, 48]

/-- Bytes of the revision string "abc". -/
def revAbc : Bytes := [97, 98, 99]

/-- Per-identity discovery entry (qsofwdsvc.py lines 62-66, class
WSJTXSource): identity, current return address, and the dedicated UDP
socket allocated in the constructor (modelled as a `Nat` handle). -/
structure WSJTXSource where
  ident : Bytes
  dest : Addr
  proxysock : Nat
  deriving DecidableEq, Repr

/-- Destination endpoint from the configuration (qsofwdsvc.py lines
132-135): `host` defaults to "127.0.0.1" (abstract host 2130706433) and
`name` defaults to "host:port"; `port` is mandatory. -/
structure Destination where
  host : Option Nat := none
  port : Nat
  deriving DecidableEq, Repr

/-- Configuration blob loaded from qsofwd.yaml, with the keys the relay
reads: `destinations` (default []), `loglevel`, and the `source` host/port
(qsofwdsvc.py lines 76, 98-100, 132). -/
structure Config where
  destinations : List Destination := []
  loglevel : Option Nat := none
  sourceHost : Option Nat := none
  sourcePort : Option Nat := none
  deriving DecidableEq, Repr

/-- State of a QSOForwarder instance: the discovery table `sources`
(Python dict modelled as an insertion-ordered association list keyed by
`WSJTXSource.ident`), the fresh-socket counter (abstracting socket
allocation), the loaded configuration with its last modification time, and
the address the inbound socket was bound to (qsofwdsvc.py lines 93-103). -/
structure QSOForwarderState where
  sources : List WSJTXSource
  nextSock : Nat
  config : Config
  lastConfig : Nat
  inboundAddr : Addr
  deriving DecidableEq, Repr

/-- Observable actions of one forwarder cycle: UDP sends (distinguishing
`source.proxysock.sendto`, line 137, from `self.inbound.sendto`, line 160)
and the log lines of qsofwdsvc.py lines 124-125, 130, 163-164, 168-169. -/
inductive Effect
  | sendProxy (sock : Nat) (data : Bytes) (dest : Addr)
  | sendInbound (data : Bytes) (dest : Addr)
  | logNewSource (addr : Addr) (ident : Bytes) (version revision : Option Bytes)
  | logReceived (ptype : Nat) (ident : Bytes)
  | logUnknownSource (addr : Addr) (ident : Bytes)
  | logReplySent (addr : Addr) (ident : Bytes) (dest : Addr)
  deriving DecidableEq, Repr

/-- Lookup `self.sources[ident]` on the association-list model of the
Python dict (first — and, since keys are unique, only — match). -/
def findSource : List WSJTXSource → Bytes → Option WSJTXSource
  | [], _ => none
  | s :: rest, i => if s.ident = i then some s else findSource rest i

/-- Model of the in-place `source.dest = addr` mutation (qsofwdsvc.py line
118): replace the matching entry's return address, leaving the rest of the
table untouched. -/
def updateDest : List WSJTXSource → Bytes → Addr → List WSJTXSource
  | [], _, _ => []
  | s :: rest, i, a =>
    if s.ident = i then { s with dest := a } :: rest
    else s :: updateDest rest i a

/-- Effective host of a destination: `dest.get('host', '127.0.0.1')`
(qsofwdsvc.py line 134). -/
def destHost (d : Destination) : Nat := d.host.getD 2130706433

/-- The fan-out loop of qsofwdsvc.py lines 132-143: with no source object
(`source = None`) every `source.proxysock` access raises `AttributeError`,
which is caught and skipped, so nothing is sent; with a source, the raw
received bytes are sent to every configured destination through the
source's dedicated socket. -/
def forwardAll (src : Option WSJTXSource) (data : Bytes) (dests : List Destination) : List Effect :=
  match src with
  | none => []
  | some s => dests.map fun d => Effect.sendProxy s.proxysock data (destHost d, d.port)

/-- Inbound-direction step of `run_one` after a successful decode
(qsofwdsvc.py lines 115-143): a known identity has its return address
updated in place; an unknown identity is entered into the table only on a
heartbeat, with a freshly allocated dedicated socket; then the raw bytes
are fanned out to all configured destinations (no-op when no entry
exists). -/
def QSOForwarder.inboundStep (st : QSOForwarderState) (p : WSJPacket) (data : Bytes)
    (addr : Addr) : QSOForwarderState × List Effect :=
  match findSource st.sources p.ident with
  | some src0 =>
    let src := { src0 with dest := addr }
    ({ st with sources := updateDest st.sources p.ident addr },
     Effect.logReceived p.type p.ident ::
       forwardAll (some src) data st.config.destinations)
  | none =>
    if p.type = WSJTX_HEARTBEAT then
      let newSrc : WSJTXSource := ⟨p.ident, addr, st.nextSock⟩
      ({ st with sources := st.sources ++ [newSrc], nextSock := st.nextSock + 1 },
       Effect.logNewSource addr p.ident p.version p.revision ::
         Effect.logReceived p.type p.ident ::
           forwardAll (some newSrc) data st.config.destinations)
    else
      (st, [Effect.logReceived p.type p.ident])

/-- Inbound-direction handler of `run_one` (qsofwdsvc.py lines 112-143)
for one datagram `data` received from `addr`.  When `WSJPacket.parse`
returns `None` (bad magic or schema), line 116 evaluates `p.ident` on
`None` and raises `AttributeError`; the surrounding `try` catches only
`KeyError`, so the exception escapes `run_one` (modelled as
`Except.error`).  A `struct.error` raised inside `parse` escapes the same
way. -/
def QSOForwarder.handleInbound (st : QSOForwarderState) (data : Bytes) (addr : Addr) :
    Except PyErr (QSOForwarderState × List Effect) :=
  match WSJPacket.parse data with
  | Except.error e => Except.error e
  | Except.ok none => Except.error PyErr.attributeError
  | Except.ok (some p) => Except.ok (QSOForwarder.inboundStep st p data addr)

/-- Reply-direction step of `run_one` after a successful decode
(qsofwdsvc.py lines 158-169), routed by the identity the reply packet
itself carries (`p.ident`): a known identity receives the raw bytes at its
recorded return address through `self.inbound`; an unknown identity is
logged and the datagram dropped (the `KeyError` branch of lines
161-164). -/
def QSOForwarder.replyStep (st : QSOForwarderState) (p : WSJPacket) (data : Bytes)
    (addr : Addr) : QSOForwarderState × List Effect :=
  match findSource st.sources p.ident with
  | some src =>
    (st, [Effect.sendInbound data src.dest,
          Effect.logReplySent addr src.ident src.dest])
  | none =>
    (st, [Effect.logUnknownSource addr p.ident])

/-- Reply-direction handler wrapping `QSOForwarder.replyStep` with the
decode of qsofwdsvc.py line 157; `owner` — the loop variable of line 146,
naming the identity whose dedicated socket the datagram arrived on — is
never consulted, exactly as in the source.  A `None` from `parse` again
raises `AttributeError` at `p.ident` (line 159), which the `except
KeyError` of line 161 does not catch. -/
def QSOForwarder.handleReply (owner : Bytes) (st : QSOForwarderState) (data : Bytes)
    (addr : Addr) : Except PyErr (QSOForwarderState × List Effect) :=
  match WSJPacket.parse data with
  | Except.error e => Except.error e
  | Except.ok none => Except.error PyErr.attributeError
  | Except.ok (some p) => Except.ok (QSOForwarder.replyStep st p data addr)

/-- The configuration provider: the backing file's modification time and
its parsed content (`none` models `yaml.load` raising inside
`_parse_config`, which the `config` property catches). -/
structure ConfigProvider where
  mtime : Nat
  parsed : Option Config
  deriving DecidableEq, Repr

/-- Model of the `config` property (qsofwdsvc.py lines 81-91): when the
backing file's modification time exceeds the one recorded at the last
load, `_parse_config` reloads the configuration and records the new
modification time (lines 70-79); a parse failure is caught and leaves the
previous configuration and recorded time in place.  Nothing else in the
state is touched. -/
def QSOForwarder.configPoll (st : QSOForwarderState) (prov : ConfigProvider) :
    QSOForwarderState :=
  if st.lastConfig < prov.mtime then
    match prov.parsed with
    | some c => { st with config := c, lastConfig := prov.mtime }
    | none => st
  else st

/-- Model of `setup` (qsofwdsvc.py lines 93-103): zero the last-load time,
start with an empty configuration, create the inbound socket, load the
configuration via the `config` property, bind the inbound socket to the
configured source host/port (defaults "0.0.0.0":2237), and start with an
empty discovery table. -/
def QSOForwarder.setup (prov : ConfigProvider) : QSOForwarderState :=
  let st0 : QSOForwarderState :=
    { sources := [], nextSock := 0, config := {}, lastConfig := 0, inboundAddr := (0, 0) }
  let st1 := QSOForwarder.configPoll st0 prov
  { st1 with
    inboundAddr := (st1.config.sourceHost.getD 0, st1.config.sourcePort.getD 2237),
    sources := [] }

/-- What one `select` round observes on one socket of the serial bridge
(flrigproxy.py line 130): nothing readable; readable with a data chunk;
readable at orderly peer close (`recv` returns an empty byte string);
or readable with the pending error that `recv` will raise. -/
inductive SockEvent
  | silent
  | bytes (d : Bytes)
  | eof
  | err
  deriving DecidableEq, Repr

/-- One chunk copied by the proxy loop: `toFlrig = true` for data read from
the rigctlcom socket and written to the flrig socket (flrigproxy.py lines
132-133), `false` for the opposite direction (lines 136-137). -/
structure Chunk where
  toFlrig : Bool
  data : Bytes
  deriving DecidableEq, Repr

/-- Result of one iteration of `_proxy_loop`'s `while True` body
(flrigproxy.py lines 129-138): either the loop continues with the chunks
written this round, or a socket exception was raised (after the chunks
already written earlier in the same round). -/
inductive IterResult
  | next (writes : List Chunk)
  | raised (writes : List Chunk)
  deriving DecidableEq, Repr

/-- One iteration of `_proxy_loop`'s body (flrigproxy.py lines 129-138)
given what this round's `select` observes on the rigctlcom socket (`ec`)
and on the flrig socket (`ef`).  A socket with a pending error raises from
`recv` and aborts the iteration; an orderly close makes `recv` return an
empty chunk, which is then written to the other side like any data; the
loop body contains no exit of its own (`while True`, and `self.running` is
never consulted). -/
def RigProxy.proxyIter (ec ef : SockEvent) : IterResult :=
  if ec = SockEvent.err then IterResult.raised []
  else
    let ws1 : List Chunk :=
      match ec with
      | SockEvent.bytes d => [⟨true, d⟩]
      | SockEvent.eof => [⟨true, []⟩]
      | _ => []
    if ef = SockEvent.err then IterResult.raised ws1
    else
      let ws2 : List Chunk :=
        match ef with
        | SockEvent.bytes d => [⟨false, d⟩]
        | SockEvent.eof => [⟨false, []⟩]
        | _ => []
      IterResult.next (ws1 ++ ws2)

/-- Outcome of running `_proxy_loop` over a finite schedule of select
rounds: still inside `while True` (with all chunks written so far), or
exited by a raised socket exception. -/
inductive LoopOutcome
  | running (writes : List Chunk)
  | raised (writes : List Chunk)
  deriving DecidableEq, Repr

/-- Run `_proxy_loop` (flrigproxy.py lines 126-138) over a finite schedule
of select rounds.  Raising is the only way out of the `while True`; an
exhausted schedule leaves the loop still running. -/
def RigProxy.proxyRun : List (SockEvent × SockEvent) → LoopOutcome
  | [] => LoopOutcome.running []
  | r :: rest =>
    match RigProxy.proxyIter r.1 r.2 with
    | IterResult.raised ws => LoopOutcome.raised ws
    | IterResult.next ws =>
      match RigProxy.proxyRun rest with
      | LoopOutcome.running ws2 => LoopOutcome.running (ws ++ ws2)
      | LoopOutcome.raised ws2 => LoopOutcome.raised (ws ++ ws2)

/-- The chunks a non-raising round writes: the rigctlcom-side chunk (sent
to flrig) first, then the flrig-side chunk, exactly the bytes read. -/
def roundWrites (r : SockEvent × SockEvent) : List Chunk :=
  (match r.1 with
   | SockEvent.bytes d => [⟨true, d⟩]
   | SockEvent.eof => [⟨true, ([] : Bytes)⟩]
   | _ => []) ++
  (match r.2 with
   | SockEvent.bytes d => [⟨false, d⟩]
   | SockEvent.eof => [⟨false, ([] : Bytes)⟩]
   | _ => [])

/-- Does a round carry a pending socket error on either side? -/
def roundOK (r : SockEvent × SockEvent) : Bool :=
  decide (r.1 ≠ SockEvent.err) && decide (r.2 ≠ SockEvent.err)

/-- State of a RigProxy instance relevant to `stop()` (flrigproxy.py lines
16-29 and 39-44): the `running` flag, and the `thread` attribute —
`none` models an instance on which `start()` has never run (`__init__`
line 29 assigns only `self._thread`, never `self.thread`), `some j` models
the attribute set by `start()` (line 48), with `j` irrelevant truthiness
detail of the Thread object (always truthy). -/
structure RigProxy where
  running : Bool
  threadAttr : Option Nat
  deriving DecidableEq, Repr

/-- A RigProxy as `__init__` leaves it (flrigproxy.py lines 16-29):
running, with `_thread = None` assigned but the `thread` attribute never
created. -/
def RigProxy.initState : RigProxy := { running := true, threadAttr := none }

/-- Model of `stop()` (flrigproxy.py lines 39-44): set `running := false`,
then read `self.thread` — on an instance never started, that attribute does
not exist and the read raises `AttributeError`; otherwise `join(1)` waits a
bounded time (no further state change either way). -/
def RigProxy.stop (p : RigProxy) : Except PyErr RigProxy :=
  let p1 := { p with running := false }
  match p1.threadAttr with
  | none => Except.error PyErr.attributeError
  | some _ => Except.ok p1

/-- The three owned resources `_reset` tears down (flrigproxy.py lines
27-28): the rigctlcom-side socket, the rigctlcom child process, and the
flrig socket, each present or absent. -/
structure BridgeResources where
  rigctlcom_sock : Option Nat
  rigctlcom : Option Nat
  flrig_sock : Option Nat
  deriving DecidableEq, Repr

/-- Teardown actions `_reset` can perform, in source order (flrigproxy.py
lines 75-90): close the rigctlcom socket, kill then wait for the rigctlcom
child, close the flrig socket. -/
inductive ResetStep
  | closeRigctlcomSock
  | killRigctlcom
  | waitRigctlcom
  | closeFlrigSock
  deriving DecidableEq, Repr

/-- Model of `_reset` (flrigproxy.py lines 75-90): each of the three
resources is closed/killed-and-waited only if present, and its handle is
set back to `None`; absent resources are skipped, so the call is total. -/
def RigProxy.reset (r : BridgeResources) : BridgeResources × List ResetStep :=
  (⟨none, none, none⟩,
   (if r.rigctlcom_sock.isSome then [ResetStep.closeRigctlcomSock] else []) ++
   (if r.rigctlcom.isSome then [ResetStep.killRigctlcom, ResetStep.waitRigctlcom] else []) ++
   (if r.flrig_sock.isSome then [ResetStep.closeFlrigSock] else []))

/-- How one pass of `thread_loop`'s try-block ends (flrigproxy.py lines
60-73): normally; with `ConnectionRefusedError` from `connect` (a subclass
of `socket.error`, matched first); with another `socket.error` (a
transport error, e.g. raised out of `_proxy_loop`); or with any other
exception. -/
inductive BodyEnd
  | normal
  | connRefused
  | sockErr
  | otherExc
  deriving DecidableEq, Repr

/-- Exception handling of one `thread_loop` iteration (flrigproxy.py lines
60-73): connection-refused is passed over silently with no teardown, while
a transport error or an unexpected exception funnels into `_reset`, which
runs before the loop re-enters `_connect_flrig` on the next iteration. -/
def RigProxy.thread_loop_body (r : BridgeResources) (e : BodyEnd) :
    BridgeResources × List ResetStep :=
  match e with
  | BodyEnd.normal => (r, [])
  | BodyEnd.connRefused => (r, [])
  | BodyEnd.sockErr => RigProxy.reset r
  | BodyEnd.otherExc => RigProxy.reset r

/-- A 16-byte datagram whose magic word is 0xDEADBEEF instead of
0xADBCCBDA. -/
def badMagicMsg : Bytes := u32be 0xDEADBEEF ++ u32be 2 ++ u32be 0 ++ u32be 0

/-- A 16-byte datagram with the right magic but schema 3 instead of 2. -/
def badSchemaMsg : Bytes := u32be 0xADBCCBDA ++ u32be 3 ++ u32be 0 ++ u32be 0

/-- A 14-byte datagram with a valid header (magic, schema 2, discriminant
1) that ends after only 2 of the 4 bytes of the identity length prefix. -/
def truncatedMsg : Bytes := u32be 0xADBCCBDA ++ u32be 2 ++ u32be 1 ++ [0, 0]

/-- A datagram with a valid header whose identity field declares a length
of 100 but is followed by only 3 bytes. -/
def overlongLenMsg : Bytes :=
  u32be 0xADBCCBDA ++ u32be 2 ++ u32be 1 ++ u32be 100 ++ [97, 98, 99]

/-- The well-formed Heartbeat datagram of the spec's example: identity
"FT-101", max-schema 3, version "2.0", revision "abc". -/
def hbFT101 : Bytes := heartbeatDatagram identFT101 3 ver20 revAbc

/-- A well-formed non-heartbeat (discriminant 1) datagram bearing identity
"FT-101". -/
def opaqueFT101 : Bytes := opaqueDatagram 1 identFT101 []

/-- The packet the source's parser actually produces for `hbFT101`: the
version is right but the revision comes out as the 4 bytes `00 00 00 03`
followed by "abc", because of the missing-prefix offset slip in
`parse_type_0`. -/
def pHB : WSJPacket :=
  { type := 0, ident := identFT101, max_schema := some 3,
    version := some ver20, revision := some [0, 0, 0, 3, 97, 98, 99] }

/-- The packet the parser produces for `opaqueFT101`. -/
def pOpaque : WSJPacket := { type := 1, ident := identFT101 }

/-- A forwarder state with an empty discovery table. -/
def emptyForwarder : QSOForwarderState :=
  { sources := [], nextSock := 0, config := {}, lastConfig := 0,
    inboundAddr := (0, 2237) }

/-- A forwarder state whose discovery table holds one entry for "FT-101"
with return address (9, 2237) and dedicated socket 5. -/
def oneSourceForwarder : QSOForwarderState :=
  { sources := [⟨identFT101, (9, 2237), 5⟩], nextSock := 6, config := {},
    lastConfig := 0, inboundAddr := (0, 2237) }

/-- A forwarder state that last loaded its configuration at modification
time 5. -/
def staleForwarder : QSOForwarderState :=
  { sources := [⟨identFT101, (9, 2237), 5⟩], nextSock := 6, config := {},
    lastConfig := 5, inboundAddr := (0, 2237) }

/-- A freshly edited configuration: one destination, a new log level. -/
def reloadConfig : Config :=
  { destinations := [{ host := some 7, port := 4000 }], loglevel := some 10 }

/-- A configuration provider whose backing file was modified at time 6. -/
def provAt6 : ConfigProvider := { mtime := 6, parsed := some reloadConfig }

/-- A configuration provider carrying an explicit inbound listen endpoint
(host 3, port 2300). -/
def provListen : ConfigProvider :=
  { mtime := 1, parsed := some { sourceHost := some 3, sourcePort := some 2300 } }

theorem findSource_append_of_none {l : List WSJTXSource} {i : Bytes}
    (h : findSource l i = none) (l2 : List WSJTXSource) :
    findSource (l ++ l2) i = findSource l2 i := by
  induction l with
  | nil => rfl
  | cons s rest ih =>
    by_cases hs : s.ident = i
    · simp [findSource, hs] at h
    · simp only [findSource, hs, if_neg, ite_false, List.cons_append] at h ⊢
      exact ih h

theorem updateDest_append_of_none {l : List WSJTXSource} {i : Bytes}
    (h : findSource l i = none) (l2 : List WSJTXSource) (a : Addr) :
    updateDest (l ++ l2) i a = l ++ updateDest l2 i a := by
  induction l with
  | nil => rfl
  | cons s rest ih =>
    by_cases hs : s.ident = i
    · simp [findSource, hs] at h
    · simp only [findSource, hs, ite_false, List.cons_append, updateDest] at h ⊢
      rw [show rest.append l2 = rest ++ l2 from rfl, ih h]

theorem handleInbound_parse_ok (st : QSOForwarderState) (data : Bytes) (addr : Addr)
    (p : WSJPacket) (h : WSJPacket.parse data = Except.ok (some p)) :
    QSOForwarder.handleInbound st data addr =
      Except.ok (QSOForwarder.inboundStep st p data addr) := by
  unfold QSOForwarder.handleInbound
  rw [h]

theorem handleReply_parse_ok (owner : Bytes) (st : QSOForwarderState) (data : Bytes)
    (addr : Addr) (p : WSJPacket) (h : WSJPacket.parse data = Except.ok (some p)) :
    QSOForwarder.handleReply owner st data addr =
      Except.ok (QSOForwarder.replyStep st p data addr) := by
  unfold QSOForwarder.handleReply
  rw [h]

/-- Claim C1 (code behaviour at the failing input): for a datagram with a
wrong magic word, and likewise for one with schema 3, `WSJPacket.parse`
logs and returns `None` (`Except.ok none`) — but `run_one` then evaluates
`p.ident` on that `None` and raises `AttributeError`, which its `except
KeyError` does not catch, so the run-one-cycle aborts instead of completing
normally (and in `POSIXQSOForwarder.main` the exception ends the process,
so subsequent datagrams are not handled).  This refutes the claim that
processing continues after a decode error. -/
theorem C1_decode_failure_aborts_cycle (st : QSOForwarderState) (addr : Addr) :
    WSJPacket.parse badMagicMsg = Except.ok none ∧
    WSJPacket.parse badSchemaMsg = Except.ok none ∧
    QSOForwarder.handleInbound st badMagicMsg addr =
      Except.error PyErr.attributeError ∧
    QSOForwarder.handleInbound st badSchemaMsg addr =
      Except.error PyErr.attributeError :=
  ⟨rfl, rfl, rfl, rfl⟩

/-- Claim C2 (code behaviour at the failing input): decoding the claim's
own well-formed Heartbeat datagram — identity "FT-101", max-schema 3,
version "2.0", revision "abc" — yields a packet whose identity, max-schema
and version match, but whose revision is the 4 bytes `00 00 00 03` followed
by "abc" rather than "abc": `parse_type_0` advances past the version string
by `len(version)` only, omitting its 4-byte length prefix, so the revision
is read 4 bytes early.  This refutes the claim that every field equals the
encoded value. -/
theorem C2_heartbeat_revision_garbled :
    WSJPacket.parse hbFT101 = Except.ok (some pHB) ∧
    pHB.revision = some [0, 0, 0, 3, 97, 98, 99] ∧
    pHB.revision ≠ some revAbc :=
  ⟨rfl, rfl, by decide⟩

/-- Claim C5 (code behaviour at the failing inputs): a datagram whose
buffer ends before the 4-byte identity length prefix is complete makes
`parse` raise `struct.error` (an uncontrolled fault, not a returned decode
failure); and a datagram whose declared identity length (100) runs past the
end of the buffer is silently truncated — `parse` returns a packet whose
identity is just the 3 bytes actually present, again not a decode failure.
Both refute the claim that such datagrams produce a decode failure with no
packet and no fault. -/
theorem C5_malformed_length_behaviour :
    WSJPacket.parse truncatedMsg = Except.error PyErr.structError ∧
    WSJPacket.parse overlongLenMsg =
      Except.ok (some { type := 1, ident := [97, 98, 99] }) :=
  ⟨rfl, rfl⟩

/-- Claim C6: when a decodable Heartbeat bearing an identity absent from
the discovery table arrives from address `A`, exactly one new entry is
appended for that identity — bound to the freshly allocated socket
`st.nextSock`, which differs from every existing entry's socket — and its
version/revision are recorded in the new-source log line; a subsequent
decodable datagram of any type bearing the same identity, arriving from
any address `B`, updates that same entry's return address to `B` in place,
creating no second entry and allocating no new socket. -/
theorem C6_discovery_lifecycle
    (st : QSOForwarderState) (hb d2 : Bytes) (A B : Addr) (p p2 : WSJPacket)
    (hp : WSJPacket.parse hb = Except.ok (some p))
    (ht : p.type = WSJTX_HEARTBEAT)
    (hnew : findSource st.sources p.ident = none)
    (hfresh : ∀ s ∈ st.sources, s.proxysock < st.nextSock)
    (hp2 : WSJPacket.parse d2 = Except.ok (some p2))
    (hi2 : p2.ident = p.ident) :
    QSOForwarder.handleInbound st hb A =
      Except.ok
        ({ st with sources := st.sources ++ [⟨p.ident, A, st.nextSock⟩],
                   nextSock := st.nextSock + 1 },
         Effect.logNewSource A p.ident p.version p.revision ::
           Effect.logReceived p.type p.ident ::
             forwardAll (some ⟨p.ident, A, st.nextSock⟩) hb st.config.destinations) ∧
    (∀ s ∈ st.sources, s.proxysock ≠ st.nextSock) ∧
    QSOForwarder.handleInbound
        { st with sources := st.sources ++ [⟨p.ident, A, st.nextSock⟩],
                  nextSock := st.nextSock + 1 } d2 B =
      Except.ok
        ({ st with sources := st.sources ++ [⟨p.ident, B, st.nextSock⟩],
                   nextSock := st.nextSock + 1 },
         Effect.logReceived p2.type p2.ident ::
           forwardAll (some ⟨p.ident, B, st.nextSock⟩) d2 st.config.destinations) := by
  refine ⟨?_, ?_, ?_⟩
  · rw [handleInbound_parse_ok st hb A p hp]
    unfold QSOForwarder.inboundStep
    rw [hnew, ht]
    rfl
  · intro s hs
    exact Nat.ne_of_lt (hfresh s hs)
  · rw [handleInbound_parse_ok _ d2 B p2 hp2]
    unfold QSOForwarder.inboundStep
    have hfind :
        findSource (st.sources ++ [⟨p.ident, A, st.nextSock⟩]) p2.ident =
          some ⟨p.ident, A, st.nextSock⟩ := by
      rw [hi2, findSource_append_of_none hnew]
      simp [findSource]
    have hupd :
        updateDest (st.sources ++ [⟨p.ident, A, st.nextSock⟩]) p2.ident B =
          st.sources ++ [⟨p.ident, B, st.nextSock⟩] := by
      rw [hi2, updateDest_append_of_none hnew]
      simp [updateDest]
    simp only [hfind, hupd]

/-- Claim C7: a decodable reply datagram arriving on any discovery entry's
dedicated socket is handled independently of the identity `owner` that
owns the socket it arrived on, and is routed by the identity decoded from
the reply itself: when that identity is in the table, the raw received
bytes are forwarded unmodified to that identity's currently recorded
return address (and the table is untouched); when it is not, the datagram
only produces the unknown-source log line and is dropped. -/
theorem C7_reply_routing
    (owner owner2 : Bytes) (st : QSOForwarderState) (data : Bytes) (addr : Addr)
    (p : WSJPacket) (hp : WSJPacket.parse data = Except.ok (some p)) :
    QSOForwarder.handleReply owner st data addr =
      QSOForwarder.handleReply owner2 st data addr ∧
    (∀ src, findSource st.sources p.ident = some src →
      QSOForwarder.handleReply owner st data addr =
        Except.ok (st, [Effect.sendInbound data src.dest,
                        Effect.logReplySent addr src.ident src.dest])) ∧
    (findSource st.sources p.ident = none →
      QSOForwarder.handleReply owner st data addr =
        Except.ok (st, [Effect.logUnknownSource addr p.ident])) := by
  refine ⟨rfl, ?_, ?_⟩
  · intro src hsrc
    rw [handleReply_parse_ok owner st data addr p hp]
    unfold QSOForwarder.replyStep
    rw [hsrc]
  · intro hnone
    rw [handleReply_parse_ok owner st data addr p hp]
    unfold QSOForwarder.replyStep
    rw [hnone]

/-- Witness for C6: starting from the empty table, the "FT-101" Heartbeat
from (1, 5000) creates exactly the one expected entry with socket 0, and
the subsequent type-1 datagram from (2, 6000) moves that entry's return
address without adding an entry. -/
theorem C6_discovery_lifecycle_witness :
    QSOForwarder.handleInbound emptyForwarder hbFT101 (1, 5000) =
      Except.ok
        ({ sources := [⟨identFT101, (1, 5000), 0⟩], nextSock := 1, config := {},
           lastConfig := 0, inboundAddr := (0, 2237) },
         [Effect.logNewSource (1, 5000) identFT101 (some ver20)
            (some [0, 0, 0, 3, 97, 98, 99]),
          Effect.logReceived 0 identFT101]) ∧
    QSOForwarder.handleInbound
        { sources := [⟨identFT101, (1, 5000), 0⟩], nextSock := 1, config := {},
          lastConfig := 0, inboundAddr := (0, 2237) } opaqueFT101 (2, 6000) =
      Except.ok
        ({ sources := [⟨identFT101, (2, 6000), 0⟩], nextSock := 1, config := {},
           lastConfig := 0, inboundAddr := (0, 2237) },
         [Effect.logReceived 1 identFT101]) := by
  have h := C6_discovery_lifecycle emptyForwarder hbFT101 opaqueFT101 (1, 5000) (2, 6000)
    pHB pOpaque rfl rfl rfl (by intro s hs; simp [emptyForwarder] at hs) rfl rfl
  exact ⟨h.1, h.2.2⟩

/-- Witness for C7: a reply bearing identity "FT-101" that arrives on the
socket owned by some other identity is forwarded to "FT-101"'s recorded
return address (9, 2237). -/
theorem C7_reply_routing_witness :
    QSOForwarder.handleReply [1] oneSourceForwarder opaqueFT101 (8, 700) =
      Except.ok (oneSourceForwarder,
        [Effect.sendInbound opaqueFT101 (9, 2237),
         Effect.logReplySent (8, 700) identFT101 (9, 2237)]) :=
  (C7_reply_routing [1] [] oneSourceForwarder opaqueFT101 (8, 700) pOpaque rfl).2.1
    ⟨identFT101, (9, 2237), 5⟩ rfl

/-- Claim C9: when the provider's modification time exceeds the one
recorded at the last load and the file parses, the `config` property
installs the new configuration (destinations and log level) and records
the new modification time — and the reload leaves the discovery table, the
socket counter, and the inbound socket's binding exactly as they were. -/
theorem C9_config_reload_frame (st : QSOForwarderState) (prov : ConfigProvider)
    (c : Config) (hm : st.lastConfig < prov.mtime) (hc : prov.parsed = some c) :
    QSOForwarder.configPoll st prov =
      { st with config := c, lastConfig := prov.mtime } ∧
    (QSOForwarder.configPoll st prov).sources = st.sources ∧
    (QSOForwarder.configPoll st prov).nextSock = st.nextSock ∧
    (QSOForwarder.configPoll st prov).inboundAddr = st.inboundAddr := by
  have h1 : QSOForwarder.configPoll st prov =
      { st with config := c, lastConfig := prov.mtime } := by
    unfold QSOForwarder.configPoll
    rw [if_pos hm, hc]
  exact ⟨h1, by rw [h1], by rw [h1], by rw [h1]⟩

/-- Witness for C9: a forwarder that last loaded at time 5 picks up the
provider content modified at time 6, and its discovery table survives
untouched. -/
theorem C9_config_reload_witness :
    QSOForwarder.configPoll staleForwarder provAt6 =
      { staleForwarder with config := reloadConfig, lastConfig := 6 } ∧
    (QSOForwarder.configPoll staleForwarder provAt6).sources =
      staleForwarder.sources := by
  have h := C9_config_reload_frame staleForwarder provAt6 reloadConfig (by decide) rfl
  exact ⟨h.1, h.2.1⟩

/-- Claim C10: every effect a reply-direction step emits is either a send
through the single shared inbound socket (`self.inbound.sendto`, the
`Effect.sendInbound` constructor) or a log line — never a send through any
entry's dedicated socket (`Effect.sendProxy`); and `setup` binds that
inbound socket to the configured listen endpoint, so relayed replies all
leave from the relay's configured listen address. -/
theorem C10_replies_via_inbound_socket
    (owner : Bytes) (st : QSOForwarderState) (data : Bytes) (addr : Addr)
    (st2 : QSOForwarderState) (effs : List Effect)
    (h : QSOForwarder.handleReply owner st data addr = Except.ok (st2, effs)) :
    (∀ e ∈ effs, ∀ sock d a, e ≠ Effect.sendProxy sock d a) ∧
    (∀ prov c, prov.parsed = some c → 0 < prov.mtime →
      (QSOForwarder.setup prov).inboundAddr =
        (c.sourceHost.getD 0, c.sourcePort.getD 2237)) := by
  constructor
  · intro e he sock d a
    unfold QSOForwarder.handleReply at h
    cases hq : WSJPacket.parse data with
    | error e2 => rw [hq] at h; exact absurd h (by simp)
    | ok po =>
      cases po with
      | none => rw [hq] at h; exact absurd h (by simp)
      | some p =>
        rw [hq] at h
        injection h with hpair
        unfold QSOForwarder.replyStep at hpair
        cases hf : findSource st.sources p.ident with
        | some src =>
          rw [hf] at hpair
          have heffs := congrArg Prod.snd hpair
          simp only at heffs
          rw [← heffs] at he
          simp only [List.mem_cons, List.not_mem_nil, or_false] at he
          rcases he with rfl | rfl <;> simp
        | none =>
          rw [hf] at hpair
          have heffs := congrArg Prod.snd hpair
          simp only at heffs
          rw [← heffs] at he
          simp only [List.mem_cons, List.not_mem_nil, or_false] at he
          subst he
          simp
  · intro prov c hc hm
    unfold QSOForwarder.setup QSOForwarder.configPoll
    simp only [hc]
    rw [if_pos hm]

/-- Witness for C10: the reply forwarded for "FT-101" goes out as an
inbound-socket send, not a dedicated-socket send, and a setup against a
provider configuring listen endpoint (3, 2300) binds the inbound socket
there. -/
theorem C10_replies_via_inbound_socket_witness :
    Effect.sendInbound opaqueFT101 (9, 2237) ≠
      Effect.sendProxy 5 opaqueFT101 (9, 2237) ∧
    (QSOForwarder.setup provListen).inboundAddr = (3, 2300) := by
  have h := C10_replies_via_inbound_socket [1] oneSourceForwarder opaqueFT101 (8, 700)
    oneSourceForwarder
    [Effect.sendInbound opaqueFT101 (9, 2237),
     Effect.logReplySent (8, 700) identFT101 (9, 2237)] rfl
  exact ⟨h.1 _ (by simp) 5 opaqueFT101 (9, 2237), h.2 provListen _ rfl (by decide)⟩

theorem proxyIter_ok (ec ef : SockEvent) (h : roundOK (ec, ef) = true) :
    RigProxy.proxyIter ec ef = IterResult.next (roundWrites (ec, ef)) := by
  cases ec <;> cases ef <;>
    simp_all [roundOK, RigProxy.proxyIter, roundWrites]

theorem proxyIter_err (ec ef : SockEvent) (h : roundOK (ec, ef) = false) :
    ∃ ws, RigProxy.proxyIter ec ef = IterResult.raised ws := by
  cases ec <;> cases ef <;>
    simp_all [roundOK, RigProxy.proxyIter, roundWrites]

/-- Counterexample to claim C3 as stated: an orderly peer close on the
rigctlcom side (its `recv` returning an empty byte string) does not
terminate `_proxy_loop` — after five select rounds in which that side
reports end-of-file, the loop is still running, having forwarded five
empty chunks to the flrig side (`send(b'')` succeeds), and no exit has
occurred. -/
theorem C3_orderly_close_keeps_looping :
    RigProxy.proxyRun (List.replicate 5 (SockEvent.eof, SockEvent.silent)) =
      LoopOutcome.running (List.replicate 5 ⟨true, []⟩) := rfl

/-- Claim C3 as amended: `_proxy_loop` exits exactly when some round
carries a pending socket error (its `recv` raises, which returns control to
`thread_loop` for reset and reconnect); over every error-free schedule the
loop is still running and has written precisely the chunks read, each to
the opposite socket, verbatim, in schedule order — an orderly peer close
merely forwards an empty chunk and the loop continues. -/
theorem C3_exit_only_on_error_and_exact_copy
    (rounds : List (SockEvent × SockEvent)) :
    (rounds.all roundOK = true →
      RigProxy.proxyRun rounds =
        LoopOutcome.running ((rounds.map roundWrites).flatten)) ∧
    (rounds.all roundOK = false →
      ∃ ws, RigProxy.proxyRun rounds = LoopOutcome.raised ws) := by
  induction rounds with
  | nil =>
    constructor
    · intro _; rfl
    · intro h; simp at h
  | cons r rest ih =>
    constructor
    · intro h
      rw [List.all_cons, Bool.and_eq_true] at h
      have hr := proxyIter_ok r.1 r.2 h.1
      have hrest := ih.1 h.2
      simp [RigProxy.proxyRun, hr, hrest]
    · intro h
      by_cases hr : roundOK r = true
      · rw [List.all_cons, hr, Bool.true_and] at h
        obtain ⟨ws, hws⟩ := ih.2 h
        refine ⟨roundWrites r ++ ws, ?_⟩
        simp [RigProxy.proxyRun, proxyIter_ok r.1 r.2 hr, hws]
      · obtain ⟨ws, hws⟩ := proxyIter_err r.1 r.2 (Bool.eq_false_iff.mpr hr)
        refine ⟨ws, ?_⟩
        simp [RigProxy.proxyRun, hws]

/-- Witness for the amended C3: a two-round error-free schedule — a data
chunk from rigctlcom, then an orderly close on rigctlcom together with a
data chunk from flrig — leaves the loop running with exactly the three
verbatim chunks written in order. -/
theorem C3_exit_only_on_error_witness :
    RigProxy.proxyRun
        [(SockEvent.bytes [1, 2], SockEvent.silent),
         (SockEvent.eof, SockEvent.bytes [3])] =
      LoopOutcome.running [⟨true, [1, 2]⟩, ⟨true, []⟩, ⟨false, [3]⟩] :=
  (C3_exit_only_on_error_and_exact_copy
      [(SockEvent.bytes [1, 2], SockEvent.silent),
       (SockEvent.eof, SockEvent.bytes [3])]).1 (by decide)

/-- Claim C4 (code behaviour at the failing inputs): `stop()` on a relay
that was never started raises `AttributeError` — `__init__` assigns only
`self._thread`, while `stop()` reads `self.thread` — instead of tearing
anything down; and in the Relaying state the scheduled unit of work does
not exit within any bound after `stop()`, because `_proxy_loop` is a
`while True` that never consults `self.running`: any number of idle poll
rounds (select timeouts with no traffic and no errors) leaves the loop
still running.  Both refute the claim of bounded-delay teardown from any
state. -/
theorem C4_stop_does_not_force_teardown :
    RigProxy.stop RigProxy.initState = Except.error PyErr.attributeError ∧
    ∀ n : Nat,
      RigProxy.proxyRun (List.replicate n (SockEvent.silent, SockEvent.silent)) =
        LoopOutcome.running [] := by
  refine ⟨rfl, ?_⟩
  intro n
  induction n with
  | zero => rfl
  | succ k ih =>
    rw [List.replicate_succ]
    simp [RigProxy.proxyRun, RigProxy.proxyIter, ih]

/-- Claim C8: when one pass of `thread_loop` ends in a transport error (a
`socket.error` that is not `ConnectionRefusedError`), `_reset` runs before
the next `connect()` attempt: afterwards all three resource handles are
cleared, and for each resource that was present the matching teardown
action was performed — rigctlcom socket closed, child killed and waited
for, flrig socket closed.  `_reset` is total, does nothing on an
all-absent state, and a connection-refused pass performs no teardown at
all. -/
theorem C8_reset_on_transport_error (r : BridgeResources) :
    (RigProxy.thread_loop_body r BodyEnd.sockErr).1 = ⟨none, none, none⟩ ∧
    (r.rigctlcom_sock.isSome = true →
      ResetStep.closeRigctlcomSock ∈ (RigProxy.thread_loop_body r BodyEnd.sockErr).2) ∧
    (r.rigctlcom.isSome = true →
      ResetStep.killRigctlcom ∈ (RigProxy.thread_loop_body r BodyEnd.sockErr).2 ∧
      ResetStep.waitRigctlcom ∈ (RigProxy.thread_loop_body r BodyEnd.sockErr).2) ∧
    (r.flrig_sock.isSome = true →
      ResetStep.closeFlrigSock ∈ (RigProxy.thread_loop_body r BodyEnd.sockErr).2) ∧
    RigProxy.reset ⟨none, none, none⟩ = (⟨none, none, none⟩, []) ∧
    RigProxy.thread_loop_body r BodyEnd.connRefused = (r, []) := by
  refine ⟨rfl, ?_, ?_, ?_, rfl, rfl⟩ <;>
    intro h <;>
    simp [RigProxy.thread_loop_body, RigProxy.reset, h]

/-- Witness for C8: with all three resources present, the transport-error
path clears the state and performs the kill/wait on the child. -/
theorem C8_reset_on_transport_error_witness :
    (RigProxy.thread_loop_body ⟨some 1, some 2, some 3⟩ BodyEnd.sockErr).1 =
      ⟨none, none, none⟩ ∧
    ResetStep.killRigctlcom ∈
      (RigProxy.thread_loop_body ⟨some 1, some 2, some 3⟩ BodyEnd.sockErr).2 :=
  ⟨(C8_reset_on_transport_error ⟨some 1, some 2, some 3⟩).1,
   ((C8_reset_on_transport_error ⟨some 1, some 2, some 3⟩).2.2.1 rfl).1⟩
